import Mathlib

/-!
Verification of the tenant-scoped script registry and dispatch workflow
(`src/index.ts`): a shallow embedding of the PUT `/script/:name`,
GET `/dispatch/:name` and GET `/script` handlers, with JavaScript member
access, spread and truthiness semantics made explicit, plus theorems about
their error handling and persistence behaviour.
-/

/-- JSON values as produced by `request.json()`. Numbers are modelled as
integers (the claims under study only involve integer limits). -/
inductive Json where
  | null
  | bool (b : Bool)
  | num (n : Int)
  | str (s : String)
  | arr (items : List Json)
  | obj (fields : List (String × Json))


/-- Last-wins field lookup on a JS object, as `JSON.parse` keeps the last
duplicate key. `none` models the JS value `undefined`. -/
def jlookup (fields : List (String × Json)) (f : String) : Option Json :=
  fields.foldl (fun acc p => if p.1 = f then some p.2 else acc) none

/-- JS member access `v.f` on a defined value: throws (`.error`) on `null`,
looks the field up on objects, and yields `undefined` on other primitives. -/
def jsMember : Json → String → Except Unit (Option Json)
  | .null, _ => .error ()
  | .obj fields, f => .ok (jlookup fields f)
  | _, _ => .ok none

/-- JS member access on a possibly-`undefined` value (`undefined.f` throws). -/
def jsMemberOpt : Option Json → String → Except Unit (Option Json)
  | none, _ => .error ()
  | some v, f => jsMember v f

/-- JS object-spread field extraction: `{...v}` contributes a field `f` only
when `v` is an object carrying it; spreading `undefined`, `null` or a
primitive contributes nothing. -/
def spreadField (v : Option Json) (f : String) : Option Json :=
  match v with
  | some (.obj fields) => jlookup fields f
  | _ => none

/-- JS truthiness of a possibly-`undefined` value. -/
def jsTruthy : Option Json → Bool
  | none => false
  | some .null => false
  | some (.bool b) => b
  | some (.num n) => n != 0
  | some (.str s) => s != ""
  | some (.arr _) => true
  | some (.obj _) => true

/-- The authenticated customer attached by the `WithCustomer` middleware. -/
structure Customer where
  id : String
  plan_type : String


/-- The `DispatchLimits` record built in the upload handler:
`{ script_id: scriptName, ...data.dispatch_config.limits }`. Fields absent
from the spread stay `undefined` (`none`). -/
structure DispatchLimits where
  script_id : String
  cpuMs : Option Json
  memory : Option Json


/-- HTTP responses produced by the handlers. `api` mirrors `ApiResponse`
(plain message plus status) and `json` mirrors `JsonResponse` (JSON body
plus status); both helpers live in `router.ts`, whose behaviour is fixed by
the spec's response table (§6, §7). -/
inductive Resp where
  | api (message : String) (status : Nat)
  | json (body : Json) (status : Nat)


/-- Modelled from the spec: `ApiResponse` (router.ts, not in src/) returns a
response with the given message and status (§6, §7). -/
def ApiResponse (message : String) (status : Nat) : Resp :=
  Resp.api message status

/-- Modelled from the spec: `JsonResponse` (router.ts, not in src/) returns a
response with the given JSON body and status (§6, §7). -/
def JsonResponse (body : Json) (status : Nat) : Resp :=
  Resp.json body status

def Resp.status : Resp → Nat
  | .api _ s => s
  | .json _ s => s

/-- Writes (and the one log) performed by the upload handler, in program
order: the namespace script write, the d1 `dispatch_limits` insert, the tag
write, and the console log on tagging failure. -/
inductive Effect where
  | putScript (name : String) (content : Option Json)
  | addDispatchLimits (limits : DispatchLimits)
  | putTags (name : String) (tags : List String)
  | logTagFailure


def Effect.isAddDispatchLimits : Effect → Bool
  | .addDispatchLimits _ => true
  | _ => false

def Effect.isPutTags : Effect → Bool
  | .putTags _ _ => true
  | _ => false

/-- The `dispatch_limits` row recorded in an effect trace, if any. -/
def storedLimits (effects : List Effect) : Option DispatchLimits :=
  effects.findSome? fun e =>
    match e with
    | .addDispatchLimits l => some l
    | _ => none

/-- Outcomes of the external calls made by the upload handler:
`GetTagsOnScript` may fail (store/namespace lookup error) or yield the tag
list; `PutScriptInDispatchNamespace` either succeeds or is rejected with the
platform's diagnostic JSON (`!scriptResponse.ok`); `PutTagsOnScript` reports
whether the tagging response was ok. -/
structure UploadEnv where
  GetTagsOnScript : Except Unit (List String)
  PutScriptInDispatchNamespace : Except Json Unit
  PutTagsOnScript : Bool


/-- The error message of the body-shape 400 in the upload handler. -/
def expectedJsonMsg : String :=
  "Expected json: \x7b script: string, dispatch_config: \x7b limits?: \x7b cpuMs: number, memory: number \x7d, outbound: string \x7d\x7d"

/-- The body-reading step of the upload handler: `await request.json()`
(throws on malformed JSON), then `scriptContent = data.script` and
`limits = { script_id: scriptName, ...data.dispatch_config.limits }`, any
thrown error being caught and mapped to the 400 by the caller. -/
def parseUploadBody (body : Except Unit Json) (scriptName : String) :
    Except Unit (Option Json × DispatchLimits) :=
  match body with
  | .error e => .error e
  | .ok data =>
    match jsMember data "script" with
    | .error e => .error e
    | .ok script =>
      match jsMember data "dispatch_config" with
      | .error e => .error e
      | .ok dc =>
        match jsMemberOpt dc "limits" with
        | .error e => .error e
        | .ok limitsVal =>
          .ok (script,
            { script_id := scriptName
              cpuMs := spreadField limitsVal "cpuMs"
              memory := spreadField limitsVal "memory" })

/-- The upload handler from the body-parsing step on (after the ownership
check has passed): parse, namespace upload, conditional limits persistence,
tagging with log-only failure handling, 201 on success. -/
def uploadAfterOwnership (env : UploadEnv) (scriptName : String)
    (customer : Customer) (body : Except Unit Json) : Resp × List Effect :=
  match parseUploadBody body scriptName with
  | .error _ => (ApiResponse expectedJsonMsg 400, [])
  | .ok (scriptContent, limits) =>
    match env.PutScriptInDispatchNamespace with
    | .error payload =>
      (JsonResponse payload 400, [Effect.putScript scriptName scriptContent])
    | .ok _ =>
      (ApiResponse "Success" 201,
        Effect.putScript scriptName scriptContent ::
          ((if jsTruthy limits.cpuMs || jsTruthy limits.memory then
              [Effect.addDispatchLimits limits]
            else []) ++
            (Effect.putTags scriptName [customer.id, customer.plan_type] ::
              (if env.PutTagsOnScript then [] else [Effect.logTagFailure]))))

/-- The PUT `/script/:name` handler: tag lookup (500 on failure), ownership
check (409 when claimed by another tenant), then the rest of the pipeline. -/
def uploadHandler (env : UploadEnv) (scriptName : String)
    (customer : Customer) (body : Except Unit Json) : Resp × List Effect :=
  match env.GetTagsOnScript with
  | .error _ => (ApiResponse "Could not complete request" 500, [])
  | .ok tags =>
    if tags.length > 0 && !(tags.contains customer.id) then
      (ApiResponse "Script name already reserved" 409, [])
    else
      uploadAfterOwnership env scriptName customer body

/-- `true` exactly when reading `data.dispatch_config.limits` from a parsed
body `b` throws in JS: `b` is `null` or a non-object, or its
`dispatch_config` member is absent or `null`. -/
def dispatchConfigFaults (b : Json) : Bool :=
  match b with
  | .obj fields =>
    match jlookup fields "dispatch_config" with
    | none => true
    | some .null => true
    | some _ => false
  | _ => true

/-- `true` when the body has no `dispatch_config` member at all (a non-object
body trivially lacks every member). -/
def dispatchConfigAbsent (b : Json) : Bool :=
  match b with
  | .obj fields => (jlookup fields "dispatch_config").isNone
  | _ => true

/-- The three upload responses that the code produces before touching the
namespace or the store: the 500 on tag-lookup failure, the ownership 409,
and the bad-body 400 with the expected-shape message. -/
def isPreMutationError : Resp → Bool
  | .api m s =>
    (s == 500 && m == "Could not complete request") ||
      (s == 409 && m == "Script name already reserved") ||
      (s == 400 && m == expectedJsonMsg)
  | .json _ _ => false

/-- Worker args: the handler always passes the empty object `{}`. -/
def WorkerArgs := List (String × Json)

/-- Outcomes of the external calls made by the dispatch handler: the two d1
reads (either throw or yield a row as JSON) and the lazy worker fetch, which
is a function of exactly the data the code hands to
`env.dispatcher.get(scriptName, workerArgs, { limits })` and `.fetch()`. -/
structure DispatchEnv where
  GetDispatchLimitFromScript : Except Unit Json
  GetOutboundWorkerFromScript : Except Unit Json
  fetch : String → List (String × Json) → Json → Except Unit Resp

/-- Modelled from the spec: `handleDispatchError` (router.ts, not in src/)
translates any dispatch failure into a single opaque HTTP error response
(§7 DispatchResolutionFailure: generic "not found / failed to dispatch"). -/
def handleDispatchError : Resp :=
  Resp.api "Could not dispatch script" 500

/-- The GET `/dispatch/:name` handler: both d1 reads and the worker fetch sit
under error handlers (`try`/`catch` plus `.catch(handleDispatchError)`), the
outbound-worker row is read but never used, and the worker args are the
empty object. -/
def dispatchHandler (denv : DispatchEnv) (scriptName : String) : Resp :=
  match denv.GetDispatchLimitFromScript with
  | .error _ => handleDispatchError
  | .ok dispatchLimits =>
    match denv.GetOutboundWorkerFromScript with
    | .error _ => handleDispatchError
    | .ok _outboundWorker =>
      match denv.fetch scriptName [] dispatchLimits with
      | .error _ => handleDispatchError
      | .ok r => r

/-- Modelled from the spec: `GetScriptsByTags` (resource.ts, not in src/)
returns the script names in the dispatch namespace carrying the given tag
(§4.3, §6: ownership listing via the namespace's tag index). The namespace
tag state is a list of (script name, tag set) pairs. -/
def GetScriptsByTags (ns : List (String × List String)) (tag : String) :
    List String :=
  (ns.filter fun p => p.2.contains tag).map fun p => p.1

/-- The GET `/script` handler: a single tag-index read serialized as a JSON
array of script names, with no writes. -/
def scriptListHandler (ns : List (String × List String))
    (customer : Customer) : Resp × List Effect :=
  (JsonResponse (Json.arr ((GetScriptsByTags ns customer.id).map Json.str)) 200,
    [])

/-! ## Concrete fixtures -/

/-- A customer as seeded by `/init`. -/
def custA : Customer := { id := "customer-a", plan_type := "basic" }

/-- An environment in which the name is unclaimed and every external call
succeeds. -/
def envAllOk : UploadEnv :=
  { GetTagsOnScript := Except.ok []
    PutScriptInDispatchNamespace := Except.ok ()
    PutTagsOnScript := true }

/-- An environment whose tag lookup fails (store unavailable). -/
def envTagsErr : UploadEnv :=
  { GetTagsOnScript := Except.error ()
    PutScriptInDispatchNamespace := Except.ok ()
    PutTagsOnScript := true }

/-- An environment in which the name is already tagged by another tenant. -/
def envOtherOwner : UploadEnv :=
  { GetTagsOnScript := Except.ok ["customer-b", "basic"]
    PutScriptInDispatchNamespace := Except.ok ()
    PutTagsOnScript := true }

/-- An environment in which the name is already tagged by `custA`. -/
def envOwnedByA : UploadEnv :=
  { GetTagsOnScript := Except.ok ["customer-a", "basic"]
    PutScriptInDispatchNamespace := Except.ok ()
    PutTagsOnScript := true }

/-- An environment in which the execution platform rejects the upload with a
diagnostic payload. -/
def envPlatformRejects : UploadEnv :=
  { GetTagsOnScript := Except.ok []
    PutScriptInDispatchNamespace := Except.error (Json.str "platform diagnostic")
    PutTagsOnScript := true }

/-- An environment in which everything succeeds except the tagging call. -/
def envTagWriteFails : UploadEnv :=
  { GetTagsOnScript := Except.ok []
    PutScriptInDispatchNamespace := Except.ok ()
    PutTagsOnScript := false }

/-- A well-formed upload body with no limits. -/
def bodyGood : Json :=
  Json.obj [("script", Json.str "export default worker"),
    ("dispatch_config", Json.obj [])]

/-- A valid-JSON upload body with no `script` member but a well-formed
`dispatch_config`. -/
def bodyNoScript : Json :=
  Json.obj [("dispatch_config", Json.obj [])]

/-- An upload body carrying `dispatch_config.limits.cpuMs = 0`. -/
def bodyCpuZero : Json :=
  Json.obj [("script", Json.str "export default worker"),
    ("dispatch_config",
      Json.obj [("limits", Json.obj [("cpuMs", Json.num 0)])])]

/-- An upload body carrying `dispatch_config.limits.cpuMs = 50`. -/
def bodyCpu50 : Json :=
  Json.obj [("script", Json.str "export default worker"),
    ("dispatch_config",
      Json.obj [("limits", Json.obj [("cpuMs", Json.num 50)])])]

/-! ## Helper lemmas -/

/-- Reading the upload body fails exactly when `data.dispatch_config.limits`
faults in JS. -/
theorem parseUploadBody_error_iff (b : Json) (scriptName : String) :
    parseUploadBody (Except.ok b) scriptName = Except.error ()
      ↔ dispatchConfigFaults b = true := by
  cases b with
  | obj fields =>
    simp only [parseUploadBody, jsMember, dispatchConfigFaults]
    cases h : jlookup fields "dispatch_config" with
    | none => simp [jsMemberOpt]
    | some v => cases v <;> simp [jsMemberOpt, jsMember]
  | null => simp [parseUploadBody, jsMember, dispatchConfigFaults]
  | bool b => simp [parseUploadBody, jsMember, jsMemberOpt, dispatchConfigFaults]
  | num n => simp [parseUploadBody, jsMember, jsMemberOpt, dispatchConfigFaults]
  | str s => simp [parseUploadBody, jsMember, jsMemberOpt, dispatchConfigFaults]
  | arr items => simp [parseUploadBody, jsMember, jsMemberOpt, dispatchConfigFaults]

/-- A body with no `dispatch_config` member makes the read fault. -/
theorem dispatchConfigAbsent_faults (b : Json)
    (h : dispatchConfigAbsent b = true) : dispatchConfigFaults b = true := by
  cases b with
  | obj fields =>
    simp only [dispatchConfigAbsent, Option.isNone_iff_eq_none] at h
    simp [dispatchConfigFaults, h]
  | null => rfl
  | bool b => rfl
  | num n => rfl
  | str s => rfl
  | arr items => rfl

/-! ## Claims -/

/-- C1 (amended): for an upload whose tag lookup succeeds and passes the
ownership check, the response is the 400 with the expected-shape message iff
reading `dispatch_config.limits` from the valid-JSON body faults (the body
is `null`/non-object, or its `dispatch_config` member is absent or `null`);
the presence or absence of the `script` member plays no role in this 400. -/
theorem C1_shape400_iff_dispatchConfigFaults
    (env : UploadEnv) (tags : List String) (scriptName : String)
    (customer : Customer) (b : Json)
    (htags : env.GetTagsOnScript = Except.ok tags)
    (hown : (tags.length > 0 && !(tags.contains customer.id)) = false) :
    (uploadHandler env scriptName customer (Except.ok b)).1
        = ApiResponse expectedJsonMsg 400
      ↔ dispatchConfigFaults b = true := by
  rw [← parseUploadBody_error_iff b scriptName]
  unfold uploadHandler
  rw [htags]
  simp only [hown, Bool.false_eq_true, if_false]
  unfold uploadAfterOwnership
  cases hp : parseUploadBody (Except.ok b) scriptName with
  | error e => simp
  | ok v =>
    obtain ⟨sc, l⟩ := v
    cases hput : env.PutScriptInDispatchNamespace with
    | error payload => simp [JsonResponse, ApiResponse]
    | ok u => simp [ApiResponse]

/-- C1 witness: a `null` body (valid JSON) hits the expected-shape 400. -/
theorem C1_shape400_witness :
    (uploadHandler envAllOk "script-a" custA (Except.ok Json.null)).1
      = ApiResponse expectedJsonMsg 400 :=
  (C1_shape400_iff_dispatchConfigFaults envAllOk [] "script-a" custA
    Json.null rfl rfl).mpr rfl

/-- C1 counterexample: the body `{"dispatch_config": {}}` is valid JSON with
no `script` member, yet the upload responds 201, not 400: in JS,
`data.script` is merely `undefined`, so the expected-shape 400 never fires
and the handler proceeds to upload `undefined` as the script content. -/
theorem C1_counterexample :
    jlookup [("dispatch_config", Json.obj [])] "script" = none ∧
    (uploadHandler envAllOk "script-a" custA (Except.ok bodyNoScript)).1.status
      = 201 :=
  ⟨rfl, rfl⟩

/-- C9: an upload whose valid-JSON body has no `dispatch_config` member (so
that reading `dispatch_config.limits` faults) is rejected with the
expected-shape 400 and performs no write at all. -/
theorem C9_missing_dispatch_config_rejected
    (env : UploadEnv) (tags : List String) (scriptName : String)
    (customer : Customer) (b : Json)
    (htags : env.GetTagsOnScript = Except.ok tags)
    (hown : (tags.length > 0 && !(tags.contains customer.id)) = false)
    (habs : dispatchConfigAbsent b = true) :
    uploadHandler env scriptName customer (Except.ok b)
      = (ApiResponse expectedJsonMsg 400, []) := by
  have hfault : parseUploadBody (Except.ok b) scriptName = Except.error () :=
    (parseUploadBody_error_iff b scriptName).mpr (dispatchConfigAbsent_faults b habs)
  unfold uploadHandler
  rw [htags]
  simp only [hown, Bool.false_eq_true, if_false]
  unfold uploadAfterOwnership
  rw [hfault]

/-- C9 witness: uploading `{"script": "export default worker"}` (no
`dispatch_config`) yields the expected-shape 400 with no writes. -/
theorem C9_missing_dispatch_config_witness :
    uploadHandler envAllOk "script-a" custA
        (Except.ok (Json.obj [("script", Json.str "export default worker")]))
      = (ApiResponse expectedJsonMsg 400, []) :=
  C9_missing_dispatch_config_rejected envAllOk [] "script-a" custA
    (Json.obj [("script", Json.str "export default worker")]) rfl rfl rfl

/-- C2 (amended): for every fully successful upload, a DispatchLimits row is
persisted iff at least one of `cpuMs`/`memory` is present in
`dispatch_config.limits` with a JS-truthy value (e.g. a nonzero number); the
persisted row is exactly the one built from the request
(`dispatch_config:{limits:{cpuMs:50}}` stores a row with `cpuMs = 50`, and
`dispatch_config:{}` stores no row). A present-but-zero value is not
persisted. -/
theorem C2_limits_persisted_iff_truthy
    (env : UploadEnv) (tags : List String) (scriptName : String)
    (customer : Customer) (body : Except Unit Json)
    (sc : Option Json) (l : DispatchLimits)
    (htags : env.GetTagsOnScript = Except.ok tags)
    (hown : (tags.length > 0 && !(tags.contains customer.id)) = false)
    (hparse : parseUploadBody body scriptName = Except.ok (sc, l))
    (hput : env.PutScriptInDispatchNamespace = Except.ok ()) :
    (uploadHandler env scriptName customer body).1 = ApiResponse "Success" 201
      ∧ storedLimits (uploadHandler env scriptName customer body).2
          = (if jsTruthy l.cpuMs || jsTruthy l.memory then some l else none) := by
  unfold uploadHandler
  rw [htags]
  simp only [hown, Bool.false_eq_true, if_false]
  unfold uploadAfterOwnership
  rw [hparse, hput]
  refine ⟨rfl, ?_⟩
  cases h : jsTruthy l.cpuMs || jsTruthy l.memory <;>
    simp [h, storedLimits, List.findSome?]

/-- C2 witness: uploading with `dispatch_config:{limits:{cpuMs:50}}` succeeds
with 201 and stores a row with `cpuMs = 50`. -/
theorem C2_limits_persisted_witness :
    (uploadHandler envAllOk "script-a" custA (Except.ok bodyCpu50)).1
        = ApiResponse "Success" 201
      ∧ storedLimits (uploadHandler envAllOk "script-a" custA
            (Except.ok bodyCpu50)).2
          = some { script_id := "script-a", cpuMs := some (Json.num 50),
                   memory := none } := by
  have h := C2_limits_persisted_iff_truthy envAllOk [] "script-a" custA
    (Except.ok bodyCpu50) (some (Json.str "export default worker"))
    { script_id := "script-a", cpuMs := some (Json.num 50), memory := none }
    rfl rfl rfl rfl
  exact ⟨h.1, by simpa [jsTruthy] using h.2⟩

/-- C2 counterexample: a request with `cpuMs` present but equal to `0`
(`dispatch_config:{limits:{cpuMs:0}}`) uploads successfully (201) yet stores
no DispatchLimits row, because the code persists on JS truthiness
(`limits.cpuMs || limits.memory`), not on presence. -/
theorem C2_counterexample :
    jlookup [("cpuMs", Json.num 0)] "cpuMs" = some (Json.num 0) ∧
    (uploadHandler envAllOk "script-a" custA (Except.ok bodyCpuZero)).1.status
        = 201 ∧
    storedLimits (uploadHandler envAllOk "script-a" custA
        (Except.ok bodyCpuZero)).2 = none :=
  ⟨rfl, rfl, rfl⟩

/-- C3: when the tag lookup succeeds, a non-empty tag set containing no tag
equal to the requesting customer's id yields 409 ("Script name already
reserved") with no writes (stored script and tags untouched); when the tag
set contains the customer's id, the handler proceeds with the rest of the
upload pipeline (the overwrite path). -/
theorem C3_ownership_check
    (env : UploadEnv) (tags : List String) (scriptName : String)
    (customer : Customer) (body : Except Unit Json)
    (htags : env.GetTagsOnScript = Except.ok tags) :
    (tags ≠ [] → customer.id ∉ tags →
      uploadHandler env scriptName customer body
        = (ApiResponse "Script name already reserved" 409, [])) ∧
    (customer.id ∈ tags →
      uploadHandler env scriptName customer body
        = uploadAfterOwnership env scriptName customer body) := by
  constructor
  · intro hne hnin
    have hcond : (tags.length > 0 && !(tags.contains customer.id)) = true := by
      simp [List.contains, List.elem_eq_mem, List.length_pos, hne, hnin]
    unfold uploadHandler
    rw [htags]
    simp only [hcond]
    simp
  · intro hin
    have hcond : (tags.length > 0 && !(tags.contains customer.id)) = false := by
      simp [List.contains, List.elem_eq_mem, hin]
    unfold uploadHandler
    rw [htags]
    simp only [hcond, Bool.false_eq_true, if_false]

/-- C3 witness: customer A uploading a name tagged only by customer B gets
409 with no writes, while uploading a name tagged by customer A proceeds
through the rest of the pipeline. -/
theorem C3_ownership_check_witness :
    uploadHandler envOtherOwner "script-a" custA (Except.ok bodyGood)
        = (ApiResponse "Script name already reserved" 409, []) ∧
    uploadHandler envOwnedByA "script-a" custA (Except.ok bodyGood)
        = uploadAfterOwnership envOwnedByA "script-a" custA
            (Except.ok bodyGood) :=
  ⟨(C3_ownership_check envOtherOwner ["customer-b", "basic"] "script-a" custA
      (Except.ok bodyGood) rfl).1 (by decide) (by decide),
   (C3_ownership_check envOwnedByA ["customer-a", "basic"] "script-a" custA
      (Except.ok bodyGood) rfl).2 (by decide)⟩

/-- Once the tag lookup succeeds and the ownership check passes, the upload
handler is the rest of the pipeline. -/
theorem uploadHandler_pass
    (env : UploadEnv) (tags : List String) (scriptName : String)
    (customer : Customer) (body : Except Unit Json)
    (htags : env.GetTagsOnScript = Except.ok tags)
    (hown : (tags.length > 0 && !(tags.contains customer.id)) = false) :
    uploadHandler env scriptName customer body
      = uploadAfterOwnership env scriptName customer body := by
  unfold uploadHandler
  rw [htags]
  simp only [hown, Bool.false_eq_true, if_false]

/-- Equation lemma: a faulting body read yields the expected-shape 400 with
no writes. -/
theorem uploadAfterOwnership_parse_error
    (env : UploadEnv) (scriptName : String) (customer : Customer)
    (body : Except Unit Json)
    (hp : parseUploadBody body scriptName = Except.error ()) :
    uploadAfterOwnership env scriptName customer body
      = (ApiResponse expectedJsonMsg 400, []) := by
  unfold uploadAfterOwnership
  rw [hp]

/-- Equation lemma: a platform-rejected upload forwards the diagnostic with
400, the trace holding only the attempted script write. -/
theorem uploadAfterOwnership_rejected
    (env : UploadEnv) (scriptName : String) (customer : Customer)
    (body : Except Unit Json) (sc : Option Json) (l : DispatchLimits)
    (payload : Json)
    (hp : parseUploadBody body scriptName = Except.ok (sc, l))
    (hq : env.PutScriptInDispatchNamespace = Except.error payload) :
    uploadAfterOwnership env scriptName customer body
      = (JsonResponse payload 400, [Effect.putScript scriptName sc]) := by
  unfold uploadAfterOwnership
  rw [hp, hq]

/-- Equation lemma: a platform-accepted upload responds 201 with the full
write trace. -/
theorem uploadAfterOwnership_accepted
    (env : UploadEnv) (scriptName : String) (customer : Customer)
    (body : Except Unit Json) (sc : Option Json) (l : DispatchLimits)
    (hp : parseUploadBody body scriptName = Except.ok (sc, l))
    (hq : env.PutScriptInDispatchNamespace = Except.ok ()) :
    uploadAfterOwnership env scriptName customer body
      = (ApiResponse "Success" 201,
          Effect.putScript scriptName sc ::
            ((if jsTruthy l.cpuMs || jsTruthy l.memory then
                [Effect.addDispatchLimits l]
              else []) ++
              (Effect.putTags scriptName [customer.id, customer.plan_type] ::
                (if env.PutTagsOnScript then []
                 else [Effect.logTagFailure])))) := by
  unfold uploadAfterOwnership
  rw [hp, hq]

/-- C4: a failing tag lookup makes the upload respond 500 ("Could not
complete request") with no mutation at all; and every upload response that is
the 500, the ownership 409, or the bad-body 400 comes with an empty write
trace — each is produced before any write to the execution namespace or the
store. -/
theorem C4_early_errors_no_writes
    (env : UploadEnv) (scriptName : String) (customer : Customer)
    (body : Except Unit Json) :
    (env.GetTagsOnScript = Except.error () →
      uploadHandler env scriptName customer body
        = (ApiResponse "Could not complete request" 500, [])) ∧
    (isPreMutationError (uploadHandler env scriptName customer body).1 = true →
      (uploadHandler env scriptName customer body).2 = []) := by
  constructor
  · intro h
    unfold uploadHandler
    rw [h]
  · intro h
    cases hg : env.GetTagsOnScript with
    | error e =>
      unfold uploadHandler
      rw [hg]
    | ok tags =>
      cases hc : (tags.length > 0 && !(tags.contains customer.id)) with
      | true =>
        unfold uploadHandler
        rw [hg]
        simp only [hc]
        rfl
      | false =>
        rw [uploadHandler_pass env tags scriptName customer body hg hc] at h ⊢
        cases hp : parseUploadBody body scriptName with
        | error e' =>
          cases e'
          rw [uploadAfterOwnership_parse_error env scriptName customer body hp]
        | ok v =>
          obtain ⟨sc, l⟩ := v
          cases hq : env.PutScriptInDispatchNamespace with
          | error payload =>
            rw [congrArg Prod.fst (uploadAfterOwnership_rejected env scriptName
              customer body sc l payload hp hq)] at h
            simp [isPreMutationError, JsonResponse] at h
          | ok u =>
            cases u
            rw [congrArg Prod.fst (uploadAfterOwnership_accepted env scriptName
              customer body sc l hp hq)] at h
            exact absurd
              (show isPreMutationError (ApiResponse "Success" 201) = true from h)
              (by decide)

/-- C4 witness: with an unavailable store, the upload gets the 500 and its
write trace is empty. -/
theorem C4_early_errors_no_writes_witness :
    uploadHandler envTagsErr "script-a" custA (Except.ok bodyGood)
        = (ApiResponse "Could not complete request" 500, []) ∧
    (uploadHandler envTagsErr "script-a" custA (Except.ok bodyGood)).2 = [] :=
  ⟨(C4_early_errors_no_writes envTagsErr "script-a" custA
      (Except.ok bodyGood)).1 rfl,
   (C4_early_errors_no_writes envTagsErr "script-a" custA
      (Except.ok bodyGood)).2 (by decide)⟩

/-- C5: when the execution platform rejects the upload, the handler responds
400 with the platform's own diagnostic payload as the body, and the write
trace holds only the attempted namespace upload — no DispatchLimits
persistence and no tagging. -/
theorem C5_platform_rejection_forwarded
    (env : UploadEnv) (tags : List String) (scriptName : String)
    (customer : Customer) (body : Except Unit Json)
    (sc : Option Json) (l : DispatchLimits) (payload : Json)
    (htags : env.GetTagsOnScript = Except.ok tags)
    (hown : (tags.length > 0 && !(tags.contains customer.id)) = false)
    (hparse : parseUploadBody body scriptName = Except.ok (sc, l))
    (hrej : env.PutScriptInDispatchNamespace = Except.error payload) :
    uploadHandler env scriptName customer body
        = (JsonResponse payload 400, [Effect.putScript scriptName sc]) ∧
    ((uploadHandler env scriptName customer body).2.all fun e =>
        !e.isAddDispatchLimits && !e.isPutTags) = true := by
  have hmain : uploadHandler env scriptName customer body
      = (JsonResponse payload 400, [Effect.putScript scriptName sc]) := by
    unfold uploadHandler
    rw [htags]
    simp only [hown, Bool.false_eq_true, if_false]
    unfold uploadAfterOwnership
    rw [hparse, hrej]
  refine ⟨hmain, ?_⟩
  rw [hmain]
  rfl

/-- C5 witness: a platform rejection is forwarded with its diagnostic. -/
theorem C5_platform_rejection_witness :
    uploadHandler envPlatformRejects "script-a" custA (Except.ok bodyGood)
      = (JsonResponse (Json.str "platform diagnostic") 400,
          [Effect.putScript "script-a"
            (some (Json.str "export default worker"))]) :=
  (C5_platform_rejection_forwarded envPlatformRejects [] "script-a" custA
    (Except.ok bodyGood) (some (Json.str "export default worker"))
    { script_id := "script-a", cpuMs := none, memory := none }
    (Json.str "platform diagnostic") rfl rfl rfl rfl).1

/-- C6: when the script upload succeeds but the tagging call fails, the
failure is logged and the handler still responds 201 ("Success") — the
upload is not rolled back and the tagging failure is not surfaced. -/
theorem C6_tagging_failure_logged_only
    (env : UploadEnv) (tags : List String) (scriptName : String)
    (customer : Customer) (body : Except Unit Json)
    (sc : Option Json) (l : DispatchLimits)
    (htags : env.GetTagsOnScript = Except.ok tags)
    (hown : (tags.length > 0 && !(tags.contains customer.id)) = false)
    (hparse : parseUploadBody body scriptName = Except.ok (sc, l))
    (hput : env.PutScriptInDispatchNamespace = Except.ok ())
    (htagfail : env.PutTagsOnScript = false) :
    (uploadHandler env scriptName customer body).1 = ApiResponse "Success" 201
      ∧ Effect.logTagFailure ∈ (uploadHandler env scriptName customer body).2 := by
  unfold uploadHandler
  rw [htags]
  simp only [hown, Bool.false_eq_true, if_false]
  unfold uploadAfterOwnership
  rw [hparse, hput, htagfail]
  refine ⟨rfl, ?_⟩
  cases h : jsTruthy l.cpuMs || jsTruthy l.memory <;> simp [h]

/-- C6 witness: with a failing tag write, the concrete upload still returns
201 and the trace records the logged failure. -/
theorem C6_tagging_failure_witness :
    (uploadHandler envTagWriteFails "script-a" custA (Except.ok bodyGood)).1
        = ApiResponse "Success" 201
      ∧ Effect.logTagFailure
          ∈ (uploadHandler envTagWriteFails "script-a" custA
              (Except.ok bodyGood)).2 :=
  C6_tagging_failure_logged_only envTagWriteFails [] "script-a" custA
    (Except.ok bodyGood) (some (Json.str "export default worker"))
    { script_id := "script-a", cpuMs := none, memory := none }
    rfl rfl rfl rfl rfl

/-- C7: the dispatch handler is total over every outcome of its external
calls: it returns either the script's own response (when both d1 reads and
the worker fetch succeed) or `handleDispatchError`, whose status is an HTTP
error status — a failure at any step (missing script, store fault, execution
fault) is translated, never propagated as an unhandled fault. -/
theorem C7_dispatch_failures_translated
    (denv : DispatchEnv) (scriptName : String) :
    400 ≤ Resp.status handleDispatchError ∧
    (dispatchHandler denv scriptName = handleDispatchError ∨
      ∃ limitsRow r, denv.GetDispatchLimitFromScript = Except.ok limitsRow ∧
        denv.fetch scriptName [] limitsRow = Except.ok r ∧
        dispatchHandler denv scriptName = r) := by
  refine ⟨by norm_num [handleDispatchError, Resp.status], ?_⟩
  unfold dispatchHandler
  cases h1 : denv.GetDispatchLimitFromScript with
  | error e => exact Or.inl rfl
  | ok limitsRow =>
    dsimp only
    cases h2 : denv.GetOutboundWorkerFromScript with
    | error e => exact Or.inl rfl
    | ok outboundRow =>
      dsimp only
      cases h3 : denv.fetch scriptName [] limitsRow with
      | error e => exact Or.inl rfl
      | ok r => exact Or.inr ⟨limitsRow, r, rfl, h3, rfl⟩

/-- C8: listing scripts for an authenticated customer performs no writes,
responds 200 with a JSON array of names, and that array holds exactly the
script names tagged with the customer's id in the namespace tag state — in
particular it is empty (still a 200, not an error) when no script carries
the customer's tag. -/
theorem C8_list_scripts_exact
    (ns : List (String × List String)) (customer : Customer) :
    (scriptListHandler ns customer).2 = [] ∧
    (scriptListHandler ns customer).1
      = JsonResponse
          (Json.arr ((GetScriptsByTags ns customer.id).map Json.str)) 200 ∧
    (∀ n : String, n ∈ GetScriptsByTags ns customer.id ↔
      ∃ tags, (n, tags) ∈ ns ∧ customer.id ∈ tags) := by
  refine ⟨rfl, rfl, fun n => ?_⟩
  simp only [GetScriptsByTags, List.mem_map, List.mem_filter, List.contains,
    List.elem_eq_mem, decide_eq_true_eq]
  constructor
  · rintro ⟨⟨m, tags⟩, ⟨hmem, hc⟩, rfl⟩
    exact ⟨tags, hmem, hc⟩
  · rintro ⟨tags, hmem, hid⟩
    exact ⟨⟨n, tags⟩, ⟨hmem, hid⟩, rfl⟩

/-- C10: the dispatch response does not depend on the contents of the
`outbound_workers` row: the row is read but never handed to the execution
handle (the worker args are always the empty object), so two dispatch
environments that agree on the limits row and on the worker — but carry
arbitrary different outbound rows — produce the same response. -/
theorem C10_dispatch_ignores_outbound_row
    (d1 d2 : DispatchEnv) (scriptName : String) (o1 o2 : Json)
    (hL : d1.GetDispatchLimitFromScript = d2.GetDispatchLimitFromScript)
    (hF : d1.fetch = d2.fetch)
    (h1 : d1.GetOutboundWorkerFromScript = Except.ok o1)
    (h2 : d2.GetOutboundWorkerFromScript = Except.ok o2) :
    dispatchHandler d1 scriptName = dispatchHandler d2 scriptName := by
  unfold dispatchHandler
  rw [hL, hF, h1, h2]

/-! ## Dispatch fixtures -/

/-- A worker fetch outcome independent of the environment rows it is not
given. -/
def fetchOk : String → List (String × Json) → Json → Except Unit Resp :=
  fun _ _ _ => Except.ok (Resp.api "hello from worker" 200)

/-- Dispatch environment whose d1 limits read fails. -/
def denvLimitsErr : DispatchEnv :=
  { GetDispatchLimitFromScript := Except.error ()
    GetOutboundWorkerFromScript := Except.ok Json.null
    fetch := fetchOk }

/-- Dispatch environment carrying outbound row `"worker-1"`. -/
def denvOutbound1 : DispatchEnv :=
  { GetDispatchLimitFromScript := Except.ok (Json.obj [])
    GetOutboundWorkerFromScript := Except.ok (Json.str "worker-1")
    fetch := fetchOk }

/-- Dispatch environment carrying outbound row `"worker-2"`. -/
def denvOutbound2 : DispatchEnv :=
  { GetDispatchLimitFromScript := Except.ok (Json.obj [])
    GetOutboundWorkerFromScript := Except.ok (Json.str "worker-2")
    fetch := fetchOk }

/-- C10 witness: two concrete dispatches that differ only in the
outbound-worker row resolve to the same response. -/
theorem C10_dispatch_ignores_outbound_row_witness :
    dispatchHandler denvOutbound1 "script-a"
      = dispatchHandler denvOutbound2 "script-a" :=
  C10_dispatch_ignores_outbound_row denvOutbound1 denvOutbound2 "script-a"
    (Json.str "worker-1") (Json.str "worker-2") rfl rfl rfl rfl
